import Mathlib

/-!
Verification development for `bot.py`, a Telegram voice-translation bot.

The per-request handler `handle_voice` (download → transcode → transcribe →
translate → reply → synthesize, with a `finally` cleanup) and the background
retention sweeper `cleanup_old_files` are embedded shallowly:

* the filesystem visible to the handler is a list of paths (`FS`);
* external collaborators (Telegram file download, ffmpeg transcoding,
  Google speech recognition, the translator, gTTS, audio delivery) are
  modelled as oracles supplied in a `Config` record, one `Except`/result
  value per call site, so every failure branch of the Python code is a
  case of the model;
* the sweeper works on directory entries carrying a path, a regular-file
  flag, a containing-directory flag and a modification time.

String literals reproduce the bytes of the source file (which is
double-encoded, so the emoji prefixes appear as mojibake codepoints).
-/

namespace TranslateBot

/-- Filesystem as the set of existing paths (listed without duplicates). -/
abbrev FS := List String

/-- Creating (writing) a file: after the call the path exists. -/
def createFile (fs : FS) (p : String) : FS := if p ∈ fs then fs else p :: fs

/-- `file_path.unlink()` wrapped in `try/except`: `ok p` says whether the
OS-level unlink succeeds; a failure is logged and swallowed, leaving the
filesystem unchanged. -/
def tryUnlink (ok : String → Bool) (fs : FS) (p : String) : FS :=
  if ok p then fs.filter (fun q => q ≠ p) else fs

/-- One step of the `finally` cleanup loop of `handle_voice`:
`if file_path and file_path.exists(): try: file_path.unlink() except: log`.
`p = none` models a path variable still bound to `None`. -/
def deleteArtifact (ok : String → Bool) (fs : FS) (p : Option String) : FS :=
  match p with
  | none => fs
  | some p => if p ∈ fs then tryUnlink ok fs p else fs

/-- The whole `finally` block: the loop over `[ogg_path, wav_path, tts_path]`. -/
def cleanupAll (ok : String → Bool) (fs : FS) (ps : List (Option String)) : FS :=
  ps.foldl (deleteArtifact ok) fs

/-- Outbound replies produced through the Telegram API: `reply_text`
and `send_audio` (the audio reply carries its caption). -/
inductive Reply
  | text (s : String)
  | audio (caption : String)
deriving DecidableEq

/-- Result of `recognizer.recognize_google`: recognized text, an
`UnknownValueError` (no speech recognized) or a `RequestError`. -/
inductive RecResult
  | ok (t : String)
  | unknownValue
  | requestError (e : String)
deriving DecidableEq

/-- Oracles for one run of `handle_voice`: what each external call site
returns on this particular request. -/
structure Config where
  /-- `msg.voice` is present (the handler is registered on voice filters,
  but the code still guards on it). -/
  hasVoice : Bool
  /-- `msg.voice.get_file()`: the Telegram file handle, whose `file_id`
  names the artifacts, or a raised transport error. -/
  getFileRes : Except String String
  /-- `tg_file.download_to_drive(ogg_path)`. -/
  downloadRes : Except String Unit
  /-- `AudioSegment.from_file(ogg_path)` + `export(wav_path)`. -/
  transcodeRes : Except String Unit
  /-- `recognizer.recognize_google(audio_data, language="km-KH")`. -/
  recResult : RecResult
  /-- `translator.translate`, as a function of the text handed to it. -/
  translateRes : String → Except String String
  /-- `gTTS(...).save(tts_path)`, as a function of the text handed to it. -/
  ttsSaveRes : String → Except String Unit
  /-- `context.bot.send_audio(...)`. -/
  sendAudioRes : Except String Unit
  /-- whether an OS-level `unlink` on a given path succeeds. -/
  unlinkOk : String → Bool

def oggPath (fid : String) : String := "downloads/" ++ fid ++ ".ogg"
def wavPath (fid : String) : String := "downloads/" ++ fid ++ ".wav"
def ttsPath (fid : String) : String := "downloads/" ++ fid ++ "_vi.mp3"

/-- Reply of the no-voice guard. -/
def usageHint : String := "Send me a voice message and I\x27ll translate it."

/-- Reply of the empty-transcript branch. -/
def couldNotMsg : String :=
  "I couldn\x27t transcribe the audio. Try a clearer recording."

/-- Reply of the catch-all `except` branch. -/
def somethingWrong (e : String) : String := "Something went wrong: " ++ e

/-- The string the `except sr.RequestError` branch stores into
`khmer_text`. -/
def recErrText (e : String) : String :=
  "[Google Speech Recognition error: " ++ e ++ "]"

/-- The combined transcript/translation text reply (step 5 of the
pipeline).  The prefixes reproduce the source file's mojibake bytes. -/
def successReply (k v : String) : String :=
  "\u00F0\u0178\u2021\u00B0\u00F0\u0178\u2021\u00AD Khmer (transcript):\n"
    ++ k
    ++ "\n\n\u00F0\u0178\u2021\u00BB\u00F0\u0178\u2021\u00B3 Vietnamese (translation):\n"
    ++ v

/-- Caption of the audio reply. -/
def ttsCaption : String := "\u00F0\u0178\u201D\u0160 Vietnamese (TTS)"

/-- The value of `khmer_text` after the transcription `try/except`. -/
def transcriptOf (r : RecResult) : String :=
  match r with
  | .ok t => t
  | .unknownValue => ""
  | .requestError e => recErrText e

/-- Outcome of the `try` body of `handle_voice` once the three artifact
paths are bound: the filesystem, the replies sent so far, the inputs
handed to the translator and to gTTS, and the exception (if any) left for
the catch-all `except` branch. -/
structure PipeOut where
  fs : FS
  replies : List Reply
  translated : List String
  synthesized : List String
  exc : Option String
deriving DecidableEq

/-- The body of `handle_voice` from the download onwards (source lines
69–112), with `ogg`, `wav`, `tts` the three artifact paths. -/
def runPipeline (cfg : Config) (fs : FS) (ogg wav tts : String) : PipeOut :=
  match cfg.downloadRes with
  | .error e => ⟨fs, [], [], [], some e⟩
  | .ok _ =>
    let fs1 := createFile fs ogg
    match cfg.transcodeRes with
    | .error e => ⟨fs1, [], [], [], some e⟩
    | .ok _ =>
      let fs2 := createFile fs1 wav
      let khmer := transcriptOf cfg.recResult
      if khmer = "" then
        ⟨fs2, [Reply.text couldNotMsg], [], [], none⟩
      else
        match cfg.translateRes khmer with
        | .error e => ⟨fs2, [], [khmer], [], some e⟩
        | .ok viet =>
          let rs := [Reply.text (successReply khmer viet)]
          match cfg.ttsSaveRes viet with
          | .error _ => ⟨fs2, rs, [khmer], [viet], none⟩
          | .ok _ =>
            let fs3 := createFile fs2 tts
            match cfg.sendAudioRes with
            | .error _ => ⟨fs3, rs, [khmer], [viet], none⟩
            | .ok _ => ⟨fs3, rs ++ [Reply.audio ttsCaption], [khmer], [viet], none⟩

/-- Observable outcome of one `handle_voice` run. -/
structure RunOut where
  replies : List Reply
  fs : FS
  translated : List String
  synthesized : List String
deriving DecidableEq

/-- The whole of `handle_voice` (source lines 52–126): the guard on
`msg.voice`, `get_file`, the pipeline, the catch-all `except` that sends
`somethingWrong`, and the unconditional `finally` cleanup (a no-op on the
branches where the path variables are still `None`). -/
def handleVoice (cfg : Config) (fs0 : FS) : RunOut :=
  if cfg.hasVoice = false then
    ⟨[Reply.text usageHint], fs0, [], []⟩
  else
    match cfg.getFileRes with
    | .error e => ⟨[Reply.text (somethingWrong e)], fs0, [], []⟩
    | .ok fid =>
      let ogg := oggPath fid
      let wav := wavPath fid
      let tts := ttsPath fid
      let out := runPipeline cfg fs0 ogg wav tts
      let rs :=
        match out.exc with
        | some e => out.replies ++ [Reply.text (somethingWrong e)]
        | none => out.replies
      ⟨rs, cleanupAll cfg.unlinkOk out.fs [some ogg, some wav, some tts],
        out.translated, out.synthesized⟩

/-! ### The retention sweeper (`cleanup_old_files`, source lines 31–49) -/

/-- A directory entry as the sweeper sees it: its path, whether it is a
regular file (`file.is_file()`), whether it lies in `DOWNLOADS_DIR`
(only those are produced by `DOWNLOADS_DIR.iterdir()`), and its
modification time in whole seconds (`file.stat().st_mtime`). -/
structure Entry where
  path : String
  isFile : Bool
  inDownloads : Bool
  mtime : Int
deriving DecidableEq

/-- `timedelta(days=1)` in seconds. -/
def secondsPerDay : Int := 86400

/-- `cutoff = now - timedelta(days=1)`. -/
def cutoffAt (now : Int) : Int := now - secondsPerDay

/-- `file.unlink()` under the per-entry `try/except`: `ok p` says whether
the OS-level unlink succeeds; on failure the entry set is unchanged. -/
def unlinkEntry (ok : String → Bool) (fs : List Entry) (p : String) :
    List Entry :=
  if ok p then fs.filter (fun d => d.path ≠ p) else fs

/-- One iteration of the sweeper's `for` loop:
`if file.is_file() and mtime(file) < cutoff: try: file.unlink()`. -/
def sweepStep (ok : String → Bool) (cutoff : Int) (fs : List Entry)
    (e : Entry) : List Entry :=
  if e.isFile = true ∧ e.mtime < cutoff then unlinkEntry ok fs e.path else fs

/-- One full pass of the sweeper over the snapshot given by
`DOWNLOADS_DIR.iterdir()` (the entries inside the downloads directory). -/
def sweepPass (ok : String → Bool) (cutoff : Int) (fs : List Entry) :
    List Entry :=
  (fs.filter (fun e => e.inDownloads = true)).foldl (sweepStep ok cutoff) fs

/-- One iteration of the sweeper's `while True` loop: the whole scan sits
in a `try/except`, so an iteration whose body raises (`failed = true`)
leaves the store as it was and the loop proceeds to its next sleep. -/
def sweepIter (ok : String → Bool) (failed : Bool) (now : Int)
    (fs : List Entry) : List Entry :=
  if failed then fs else sweepPass ok (cutoffAt now) fs

/-- The first `n` iterations of `cleanup_old_files`: `iterFails k` says
whether iteration `k`'s body raised, `nows k` is `datetime.now()` at
iteration `k`, and `ok` is the per-path unlink oracle. -/
def sweeperRun (ok : String → Bool) (iterFails : Nat → Bool)
    (nows : Nat → Int) : Nat → List Entry → List Entry
  | 0, fs => fs
  | Nat.succ n, fs =>
      sweepIter ok (iterFails n) (nows n) (sweeperRun ok iterFails nows n fs)

/-! ### Concrete scenarios used to instantiate the theorems -/

/-- A fully successful request: Khmer voice note `f1`, all collaborators up. -/
def cfgOk : Config where
  hasVoice := true
  getFileRes := Except.ok "f1"
  downloadRes := Except.ok ()
  transcodeRes := Except.ok ()
  recResult := RecResult.ok "suasdei"
  translateRes := fun s => Except.ok ("vi " ++ s)
  ttsSaveRes := fun _ => Except.ok ()
  sendAudioRes := Except.ok ()
  unlinkOk := fun _ => true

/-- Same request, but `download_to_drive` raises. -/
def cfgDownloadFail : Config := { cfgOk with downloadRes := Except.error "boom" }

/-- Same request, but `translator.translate` raises. -/
def cfgTranslateFail : Config :=
  { cfgOk with translateRes := fun _ => Except.error "boom" }

/-- Same request, but recognition yields `UnknownValueError` (no speech). -/
def cfgEmpty : Config := { cfgOk with recResult := RecResult.unknownValue }

/-- Same request, but recognition raises `RequestError` (quota/transport). -/
def cfgRecErr : Config :=
  { cfgOk with recResult := RecResult.requestError "quota exceeded" }

/-- Same request, but `gTTS(...).save` raises. -/
def cfgTtsFail : Config :=
  { cfgOk with ttsSaveRes := fun _ => Except.error "tts down" }

/-- An unlink oracle under which every deletion succeeds. -/
def okAll : String → Bool := fun _ => true

/-- An unlink oracle under which deleting `downloads/x.ogg` fails. -/
def okButX : String → Bool := fun p => p != "downloads/x.ogg"

def entryOld : Entry := ⟨"downloads/a.ogg", true, true, 0⟩
def entryNew : Entry := ⟨"downloads/b.ogg", true, true, 100000⟩
def entryX : Entry := ⟨"downloads/x.ogg", true, true, 0⟩
def entryDir : Entry := ⟨"downloads/sub", false, true, 0⟩
def entryOutside : Entry := ⟨"elsewhere/c.txt", true, false, 0⟩

/-- A snapshot of the store: an old file, a young file, a subdirectory and
a path outside the downloads directory. -/
def fsSweep : List Entry := [entryOld, entryNew, entryDir, entryOutside]

/-- A store holding two old files, one of which refuses deletion. -/
def fsSweepX : List Entry := [entryOld, entryX]

/-! ### Helper lemmas: distinguishing the user-facing strings -/

lemma head_somethingWrong (e : String) :
    (somethingWrong e).data.head? = some 'S' := rfl

lemma head_recErrText (e : String) :
    (recErrText e).data.head? = some '[' := rfl

lemma head_successReply (k v : String) :
    (successReply k v).data.head? = some 'ð' := rfl

lemma somethingWrong_ne_couldNotMsg (e : String) :
    somethingWrong e ≠ couldNotMsg := by
  intro h
  have h2 := congrArg (fun s : String => s.data.head?) h
  dsimp only at h2
  rw [head_somethingWrong] at h2
  exact absurd h2 (by decide)

lemma recErrText_ne_empty (e : String) : recErrText e ≠ "" := by
  intro h
  have h2 := congrArg (fun s : String => s.data.head?) h
  dsimp only at h2
  rw [head_recErrText] at h2
  exact absurd h2 (by decide)

lemma successReply_ne_couldNotMsg (k v : String) :
    successReply k v ≠ couldNotMsg := by
  intro h
  have h2 := congrArg (fun s : String => s.data.head?) h
  dsimp only at h2
  rw [head_successReply] at h2
  exact absurd h2 (by decide)

/-! ### Helper lemmas: membership through unlink/cleanup -/

lemma mem_tryUnlink (ok : String → Bool) (fs : FS) (p q : String) :
    q ∈ tryUnlink ok fs p ↔ q ∈ fs ∧ (ok p = true → q ≠ p) := by
  unfold tryUnlink
  by_cases h : ok p = true <;> simp [h, List.mem_filter]

lemma mem_deleteArtifact (ok : String → Bool) (fs : FS) (po : Option String)
    (q : String) :
    q ∈ deleteArtifact ok fs po ↔
      q ∈ fs ∧ ∀ p, po = some p → ok p = true → q ≠ p := by
  cases po with
  | none => simp [deleteArtifact]
  | some p =>
    simp only [deleteArtifact]
    by_cases hp : p ∈ fs
    · rw [if_pos hp, mem_tryUnlink]
      constructor
      · rintro ⟨h1, h2⟩
        refine ⟨h1, ?_⟩
        rintro p' hp' hok
        injection hp' with hpe
        subst hpe
        exact h2 hok
      · rintro ⟨h1, h2⟩
        exact ⟨h1, fun hok => h2 p rfl hok⟩
    · rw [if_neg hp]
      constructor
      · intro h1
        refine ⟨h1, ?_⟩
        rintro p' hp' hok
        injection hp' with hpe
        subst hpe
        intro hqp
        exact hp (hqp ▸ h1)
      · exact fun h => h.1

lemma mem_cleanupAll (ok : String → Bool) (fs : FS) (ps : List (Option String))
    (q : String) :
    q ∈ cleanupAll ok fs ps ↔
      q ∈ fs ∧ ∀ p, some p ∈ ps → ok p = true → q ≠ p := by
  unfold cleanupAll
  induction ps generalizing fs with
  | nil => simp
  | cons po ps ih =>
    rw [List.foldl_cons, ih, mem_deleteArtifact]
    constructor
    · rintro ⟨⟨h1, h2⟩, h3⟩
      refine ⟨h1, ?_⟩
      intro p hp hok
      rcases List.mem_cons.mp hp with hp1 | hp1
      · exact h2 p hp1.symm hok
      · exact h3 p hp1 hok
    · rintro ⟨h1, h2⟩
      exact ⟨⟨h1, fun p hp hok => h2 p (by rw [hp]; exact List.mem_cons_self _ _) hok⟩,
        fun p hp hok => h2 p (List.mem_cons_of_mem _ hp) hok⟩

lemma not_mem_cleanupAll (ok : String → Bool) (fs : FS)
    (ps : List (Option String)) (p : String)
    (hp : some p ∈ ps) (hok : ok p = true) : p ∉ cleanupAll ok fs ps := by
  intro h
  exact ((mem_cleanupAll ok fs ps p).1 h).2 p hp hok rfl

/-! ### Branch equations for `handleVoice` and `runPipeline` -/

lemma handleVoice_no_voice (cfg : Config) (fs0 : FS)
    (hv : cfg.hasVoice = false) :
    handleVoice cfg fs0 = ⟨[Reply.text usageHint], fs0, [], []⟩ := by
  unfold handleVoice
  simp [hv]

lemma handleVoice_getFile_error (cfg : Config) (fs0 : FS) (e : String)
    (hv : cfg.hasVoice = true) (hgf : cfg.getFileRes = Except.error e) :
    handleVoice cfg fs0 = ⟨[Reply.text (somethingWrong e)], fs0, [], []⟩ := by
  unfold handleVoice
  rw [hgf]
  simp [hv]

lemma handleVoice_getFile_ok (cfg : Config) (fs0 : FS) (fid : String)
    (hv : cfg.hasVoice = true) (hgf : cfg.getFileRes = Except.ok fid) :
    handleVoice cfg fs0 =
      ⟨(match (runPipeline cfg fs0 (oggPath fid) (wavPath fid) (ttsPath fid)).exc with
         | some e =>
            (runPipeline cfg fs0 (oggPath fid) (wavPath fid) (ttsPath fid)).replies
              ++ [Reply.text (somethingWrong e)]
         | none =>
            (runPipeline cfg fs0 (oggPath fid) (wavPath fid) (ttsPath fid)).replies),
       cleanupAll cfg.unlinkOk
         (runPipeline cfg fs0 (oggPath fid) (wavPath fid) (ttsPath fid)).fs
         [some (oggPath fid), some (wavPath fid), some (ttsPath fid)],
       (runPipeline cfg fs0 (oggPath fid) (wavPath fid) (ttsPath fid)).translated,
       (runPipeline cfg fs0 (oggPath fid) (wavPath fid) (ttsPath fid)).synthesized⟩ := by
  unfold handleVoice
  rw [hgf]
  simp [hv]

lemma runPipeline_download_error (cfg : Config) (fs : FS) (ogg wav tts e : String)
    (hdl : cfg.downloadRes = Except.error e) :
    runPipeline cfg fs ogg wav tts = ⟨fs, [], [], [], some e⟩ := by
  unfold runPipeline
  rw [hdl]

lemma runPipeline_transcode_error (cfg : Config) (fs : FS) (ogg wav tts e : String)
    (hdl : cfg.downloadRes = Except.ok ())
    (htc : cfg.transcodeRes = Except.error e) :
    runPipeline cfg fs ogg wav tts = ⟨createFile fs ogg, [], [], [], some e⟩ := by
  unfold runPipeline
  rw [hdl, htc]

lemma runPipeline_empty_transcript (cfg : Config) (fs : FS) (ogg wav tts : String)
    (hdl : cfg.downloadRes = Except.ok ())
    (htc : cfg.transcodeRes = Except.ok ())
    (hk : transcriptOf cfg.recResult = "") :
    runPipeline cfg fs ogg wav tts =
      ⟨createFile (createFile fs ogg) wav, [Reply.text couldNotMsg], [], [],
        none⟩ := by
  unfold runPipeline
  rw [hdl, htc]
  simp [hk]

lemma runPipeline_translate_error (cfg : Config) (fs : FS) (ogg wav tts e : String)
    (hdl : cfg.downloadRes = Except.ok ())
    (htc : cfg.transcodeRes = Except.ok ())
    (hk : transcriptOf cfg.recResult ≠ "")
    (htr : cfg.translateRes (transcriptOf cfg.recResult) = Except.error e) :
    runPipeline cfg fs ogg wav tts =
      ⟨createFile (createFile fs ogg) wav, [], [transcriptOf cfg.recResult], [],
        some e⟩ := by
  unfold runPipeline
  rw [hdl, htc]
  simp [hk, htr]

lemma runPipeline_ttsSave_error (cfg : Config) (fs : FS) (ogg wav tts v e : String)
    (hdl : cfg.downloadRes = Except.ok ())
    (htc : cfg.transcodeRes = Except.ok ())
    (hk : transcriptOf cfg.recResult ≠ "")
    (htr : cfg.translateRes (transcriptOf cfg.recResult) = Except.ok v)
    (hts : cfg.ttsSaveRes v = Except.error e) :
    runPipeline cfg fs ogg wav tts =
      ⟨createFile (createFile fs ogg) wav,
        [Reply.text (successReply (transcriptOf cfg.recResult) v)],
        [transcriptOf cfg.recResult], [v], none⟩ := by
  unfold runPipeline
  rw [hdl, htc]
  simp [hk, htr, hts]

lemma runPipeline_send_error (cfg : Config) (fs : FS) (ogg wav tts v e : String)
    (hdl : cfg.downloadRes = Except.ok ())
    (htc : cfg.transcodeRes = Except.ok ())
    (hk : transcriptOf cfg.recResult ≠ "")
    (htr : cfg.translateRes (transcriptOf cfg.recResult) = Except.ok v)
    (hts : cfg.ttsSaveRes v = Except.ok ())
    (hsend : cfg.sendAudioRes = Except.error e) :
    runPipeline cfg fs ogg wav tts =
      ⟨createFile (createFile (createFile fs ogg) wav) tts,
        [Reply.text (successReply (transcriptOf cfg.recResult) v)],
        [transcriptOf cfg.recResult], [v], none⟩ := by
  unfold runPipeline
  rw [hdl, htc]
  simp [hk, htr, hts, hsend]

lemma runPipeline_all_ok (cfg : Config) (fs : FS) (ogg wav tts v : String)
    (hdl : cfg.downloadRes = Except.ok ())
    (htc : cfg.transcodeRes = Except.ok ())
    (hk : transcriptOf cfg.recResult ≠ "")
    (htr : cfg.translateRes (transcriptOf cfg.recResult) = Except.ok v)
    (hts : cfg.ttsSaveRes v = Except.ok ())
    (hsend : cfg.sendAudioRes = Except.ok ()) :
    runPipeline cfg fs ogg wav tts =
      ⟨createFile (createFile (createFile fs ogg) wav) tts,
        [Reply.text (successReply (transcriptOf cfg.recResult) v),
          Reply.audio ttsCaption],
        [transcriptOf cfg.recResult], [v], none⟩ := by
  unfold runPipeline
  rw [hdl, htc]
  simp [hk, htr, hts, hsend]

/-! ### Membership through the sweeper -/

lemma mem_unlinkEntry (ok : String → Bool) (fs : List Entry) (p : String)
    (e : Entry) :
    e ∈ unlinkEntry ok fs p ↔ e ∈ fs ∧ (ok p = true → e.path ≠ p) := by
  unfold unlinkEntry
  by_cases h : ok p = true <;> simp [h, List.mem_filter]

lemma mem_sweepStep (ok : String → Bool) (cutoff : Int) (acc : List Entry)
    (d e : Entry) :
    e ∈ sweepStep ok cutoff acc d ↔
      e ∈ acc ∧
        ((d.isFile = true ∧ d.mtime < cutoff ∧ ok d.path = true) →
          e.path ≠ d.path) := by
  unfold sweepStep
  by_cases h : d.isFile = true ∧ d.mtime < cutoff
  · rw [if_pos h, mem_unlinkEntry]
    constructor
    · rintro ⟨h1, h2⟩
      exact ⟨h1, fun hc => h2 hc.2.2⟩
    · rintro ⟨h1, h2⟩
      exact ⟨h1, fun hok => h2 ⟨h.1, h.2, hok⟩⟩
  · rw [if_neg h]
    constructor
    · intro h1
      exact ⟨h1, fun hc => absurd ⟨hc.1, hc.2.1⟩ h⟩
    · exact fun h1 => h1.1

lemma mem_foldl_sweepStep (ok : String → Bool) (cutoff : Int)
    (l : List Entry) (acc : List Entry) (e : Entry) :
    e ∈ l.foldl (sweepStep ok cutoff) acc ↔
      e ∈ acc ∧
        ∀ d ∈ l,
          (d.isFile = true ∧ d.mtime < cutoff ∧ ok d.path = true) →
            e.path ≠ d.path := by
  induction l generalizing acc with
  | nil => simp
  | cons d l ih =>
    rw [List.foldl_cons, ih, mem_sweepStep]
    constructor
    · rintro ⟨⟨h1, h2⟩, h3⟩
      refine ⟨h1, ?_⟩
      intro d' hd' hc
      rcases List.mem_cons.mp hd' with hd1 | hd1
      · exact hd1 ▸ h2 (hd1 ▸ hc)
      · exact h3 d' hd1 hc
    · rintro ⟨h1, h2⟩
      exact ⟨⟨h1, h2 d (List.mem_cons_self _ _)⟩,
        fun d' hd' hc => h2 d' (List.mem_cons_of_mem _ hd') hc⟩

lemma mem_sweepPass (ok : String → Bool) (cutoff : Int) (fs : List Entry)
    (e : Entry) :
    e ∈ sweepPass ok cutoff fs ↔
      e ∈ fs ∧
        ∀ d ∈ fs,
          (d.inDownloads = true ∧ d.isFile = true ∧ d.mtime < cutoff ∧
              ok d.path = true) →
            e.path ≠ d.path := by
  unfold sweepPass
  rw [mem_foldl_sweepStep]
  constructor
  · rintro ⟨h1, h2⟩
    refine ⟨h1, ?_⟩
    intro d hd hc
    exact h2 d (List.mem_filter.mpr ⟨hd, by simp [hc.1]⟩) ⟨hc.2.1, hc.2.2⟩
  · rintro ⟨h1, h2⟩
    refine ⟨h1, ?_⟩
    intro d hd hc
    rcases List.mem_filter.mp hd with ⟨hd1, hd2⟩
    exact h2 d hd1 ⟨by simpa using hd2, hc⟩

lemma sweepPass_subset (ok : String → Bool) (cutoff : Int) (fs : List Entry)
    (e : Entry) (h : e ∈ sweepPass ok cutoff fs) : e ∈ fs :=
  ((mem_sweepPass ok cutoff fs e).1 h).1

/-- An entry of the downloads directory that is a regular file, older than
the cutoff, and whose unlink succeeds, is gone after the pass. -/
lemma not_mem_sweepPass_old (ok : String → Bool) (cutoff : Int)
    (fs : List Entry) (e : Entry) (hd : e.inDownloads = true)
    (hf : e.isFile = true) (hm : e.mtime < cutoff)
    (hok : ok e.path = true) : e ∉ sweepPass ok cutoff fs := by
  intro h
  rcases (mem_sweepPass ok cutoff fs e).1 h with ⟨h1, h2⟩
  exact h2 e h1 ⟨hd, hf, hm, hok⟩ rfl

lemma sweepIter_subset (ok : String → Bool) (failed : Bool) (now : Int)
    (fs : List Entry) (e : Entry) (h : e ∈ sweepIter ok failed now fs) :
    e ∈ fs := by
  unfold sweepIter at h
  by_cases hb : failed = true
  · rwa [if_pos hb] at h
  · rw [if_neg hb] at h
    exact sweepPass_subset _ _ _ _ h

/-! ### The claims -/

/-- C1: for every inbound voice request (voice payload present, file handle
obtained, so the artifact names are bound), when `handle_voice` ends —
whichever branch was taken, success, empty transcript or a raised stage —
none of the request's artifact files (raw `.ogg`, transcoded `.wav`,
synthesized `_vi.mp3`) remains in the downloads directory, provided the
OS permits the unlinks. -/
theorem cleanup_on_every_exit (cfg : Config) (fs0 : FS) (fid : String)
    (hv : cfg.hasVoice = true) (hgf : cfg.getFileRes = Except.ok fid)
    (hok : cfg.unlinkOk (oggPath fid) = true ∧
      cfg.unlinkOk (wavPath fid) = true ∧ cfg.unlinkOk (ttsPath fid) = true) :
    oggPath fid ∉ (handleVoice cfg fs0).fs ∧
    wavPath fid ∉ (handleVoice cfg fs0).fs ∧
    ttsPath fid ∉ (handleVoice cfg fs0).fs := by
  rw [handleVoice_getFile_ok cfg fs0 fid hv hgf]
  exact ⟨not_mem_cleanupAll _ _ _ _ (by simp) hok.1,
    not_mem_cleanupAll _ _ _ _ (by simp) hok.2.1,
    not_mem_cleanupAll _ _ _ _ (by simp) hok.2.2⟩

/-- Witness for C1: a fully successful run started on a store already
holding a stale raw artifact ends with all three artifacts absent. -/
theorem cleanup_on_every_exit_witness :
    oggPath "f1" ∉ (handleVoice cfgOk [oggPath "f1"]).fs ∧
    wavPath "f1" ∉ (handleVoice cfgOk [oggPath "f1"]).fs ∧
    ttsPath "f1" ∉ (handleVoice cfgOk [oggPath "f1"]).fs :=
  cleanup_on_every_exit cfgOk [oggPath "f1"] "f1" rfl rfl ⟨rfl, rfl, rfl⟩

/-- C2: every run of `handle_voice` sends exactly one primary text reply
(the usage hint, an error notice, the empty-transcript notice, or the
success text), and at most one audio reply, which occurs only immediately
after a success-format text reply — never before it and never in an error
or empty-transcript run. -/
theorem exactly_one_primary_reply (cfg : Config) (fs0 : FS) :
    (∃ t, (handleVoice cfg fs0).replies = [Reply.text t]) ∨
    (∃ k v, (handleVoice cfg fs0).replies =
        [Reply.text (successReply k v), Reply.audio ttsCaption]) := by
  by_cases hv : cfg.hasVoice = true
  case neg =>
    have hv' : cfg.hasVoice = false := by
      cases hb : cfg.hasVoice
      · rfl
      · exact absurd hb hv
    rw [handleVoice_no_voice cfg fs0 hv']
    exact Or.inl ⟨usageHint, rfl⟩
  case pos =>
    rcases hgf : cfg.getFileRes with e | fid
    · rw [handleVoice_getFile_error cfg fs0 e hv hgf]
      exact Or.inl ⟨somethingWrong e, rfl⟩
    · rw [handleVoice_getFile_ok cfg fs0 fid hv hgf]
      rcases hdl : cfg.downloadRes with e | ⟨⟩
      · rw [runPipeline_download_error cfg fs0 _ _ _ e hdl]
        exact Or.inl ⟨somethingWrong e, rfl⟩
      · rcases htc : cfg.transcodeRes with e | ⟨⟩
        · rw [runPipeline_transcode_error cfg fs0 _ _ _ e hdl htc]
          exact Or.inl ⟨somethingWrong e, rfl⟩
        · by_cases hk : transcriptOf cfg.recResult = ""
          · rw [runPipeline_empty_transcript cfg fs0 _ _ _ hdl htc hk]
            exact Or.inl ⟨couldNotMsg, rfl⟩
          · rcases htr : cfg.translateRes (transcriptOf cfg.recResult) with e | v
            · rw [runPipeline_translate_error cfg fs0 _ _ _ e hdl htc hk htr]
              exact Or.inl ⟨somethingWrong e, rfl⟩
            · rcases hts : cfg.ttsSaveRes v with e | ⟨⟩
              · rw [runPipeline_ttsSave_error cfg fs0 _ _ _ v e hdl htc hk htr hts]
                exact Or.inl ⟨successReply (transcriptOf cfg.recResult) v, rfl⟩
              · rcases hsend : cfg.sendAudioRes with e | ⟨⟩
                · rw [runPipeline_send_error cfg fs0 _ _ _ v e hdl htc hk htr
                    hts hsend]
                  exact Or.inl ⟨successReply (transcriptOf cfg.recResult) v, rfl⟩
                · rw [runPipeline_all_ok cfg fs0 _ _ _ v hdl htc hk htr hts hsend]
                  exact Or.inr ⟨transcriptOf cfg.recResult, v, rfl⟩

/-- Counterexample to C3 as stated: on a `RequestError` ("quota exceeded")
the handler does NOT abort the pipeline — the bracketed engine-error text
becomes the transcript, the translator is invoked on it and gTTS
synthesizes its translation. -/
theorem rec_error_continues_pipeline_cex :
    cfgRecErr.recResult = RecResult.requestError "quota exceeded" ∧
    (handleVoice cfgRecErr []).translated = [recErrText "quota exceeded"] ∧
    (handleVoice cfgRecErr []).synthesized =
      ["vi " ++ recErrText "quota exceeded"] := by
  refine ⟨rfl, ?_, ?_⟩ <;> decide

/-- C3 (amended): an engine `RequestError` and an empty recognition result
are two distinct outcomes with different user-facing text — the empty
result terminates with the could-not-transcribe notice and invokes no
translation, while the engine error feeds the bracketed error text onward
as the transcript, so translation runs on it and the could-not-transcribe
notice is never sent; but the engine-error case does NOT abort the
pipeline as a failure. -/
theorem rec_error_vs_empty_distinct (cfg : Config) (fs0 : FS) (fid e : String)
    (hv : cfg.hasVoice = true) (hgf : cfg.getFileRes = Except.ok fid)
    (hdl : cfg.downloadRes = Except.ok ())
    (htc : cfg.transcodeRes = Except.ok ())
    (hrec : cfg.recResult = RecResult.requestError e) :
    (handleVoice cfg fs0).translated = [recErrText e] ∧
    Reply.text couldNotMsg ∉ (handleVoice cfg fs0).replies ∧
    (handleVoice { cfg with recResult := RecResult.unknownValue } fs0).replies =
      [Reply.text couldNotMsg] ∧
    (handleVoice { cfg with recResult := RecResult.unknownValue } fs0).translated
      = [] := by
  have hk : transcriptOf cfg.recResult ≠ "" := by
    rw [hrec]
    exact recErrText_ne_empty e
  have htx : transcriptOf cfg.recResult = recErrText e := by rw [hrec]; rfl
  refine ⟨?_, ?_, ?_, ?_⟩
  · rw [handleVoice_getFile_ok cfg fs0 fid hv hgf]
    rcases htr : cfg.translateRes (transcriptOf cfg.recResult) with e' | v
    · rw [runPipeline_translate_error cfg fs0 _ _ _ e' hdl htc hk htr]
      simpa using htx
    · rcases hts : cfg.ttsSaveRes v with e' | ⟨⟩
      · rw [runPipeline_ttsSave_error cfg fs0 _ _ _ v e' hdl htc hk htr hts]
        simpa using htx
      · rcases hsend : cfg.sendAudioRes with e' | ⟨⟩
        · rw [runPipeline_send_error cfg fs0 _ _ _ v e' hdl htc hk htr hts hsend]
          simpa using htx
        · rw [runPipeline_all_ok cfg fs0 _ _ _ v hdl htc hk htr hts hsend]
          simpa using htx
  · rw [handleVoice_getFile_ok cfg fs0 fid hv hgf]
    rcases htr : cfg.translateRes (transcriptOf cfg.recResult) with e' | v
    · rw [runPipeline_translate_error cfg fs0 _ _ _ e' hdl htc hk htr]
      simp only [List.mem_cons, List.mem_singleton, List.nil_append]
      intro hmem
      rcases hmem with hmem | hmem
      · exact somethingWrong_ne_couldNotMsg e' (by injection hmem with h; exact h.symm)
      · simp at hmem
    · rcases hts : cfg.ttsSaveRes v with e' | ⟨⟩
      · rw [runPipeline_ttsSave_error cfg fs0 _ _ _ v e' hdl htc hk htr hts]
        simp
        exact fun h => successReply_ne_couldNotMsg (transcriptOf cfg.recResult) v h.symm
      · rcases hsend : cfg.sendAudioRes with e' | ⟨⟩
        · rw [runPipeline_send_error cfg fs0 _ _ _ v e' hdl htc hk htr hts hsend]
          simp
          exact fun h => successReply_ne_couldNotMsg (transcriptOf cfg.recResult) v h.symm
        · rw [runPipeline_all_ok cfg fs0 _ _ _ v hdl htc hk htr hts hsend]
          simp
          exact fun h => successReply_ne_couldNotMsg (transcriptOf cfg.recResult) v h.symm
  · rw [handleVoice_getFile_ok { cfg with recResult := RecResult.unknownValue }
      fs0 fid hv hgf]
    rw [runPipeline_empty_transcript { cfg with recResult := RecResult.unknownValue }
      fs0 _ _ _ hdl htc rfl]
  · rw [handleVoice_getFile_ok { cfg with recResult := RecResult.unknownValue }
      fs0 fid hv hgf]
    rw [runPipeline_empty_transcript { cfg with recResult := RecResult.unknownValue }
      fs0 _ _ _ hdl htc rfl]

/-- Witness for the amended C3, at the concrete `RequestError` run. -/
theorem rec_error_vs_empty_distinct_witness :
    (handleVoice cfgRecErr []).translated = [recErrText "quota exceeded"] ∧
    Reply.text couldNotMsg ∉ (handleVoice cfgRecErr []).replies ∧
    (handleVoice { cfgRecErr with recResult := RecResult.unknownValue }
      []).replies = [Reply.text couldNotMsg] ∧
    (handleVoice { cfgRecErr with recResult := RecResult.unknownValue }
      []).translated = [] :=
  rec_error_vs_empty_distinct cfgRecErr [] "f1" "quota exceeded"
    rfl rfl rfl rfl rfl

/-- Counterexample to C4 as stated: a Download failure and a Translate
failure with the same underlying error produce the IDENTICAL user-facing
reply "Something went wrong: boom", so the message cannot name the failed
capability (and it embeds the raw error string). -/
theorem stage_error_generic_message_cex :
    cfgDownloadFail.downloadRes = Except.error "boom" ∧
    cfgTranslateFail.translateRes (transcriptOf cfgTranslateFail.recResult) =
      Except.error "boom" ∧
    (handleVoice cfgDownloadFail []).replies =
      [Reply.text (somethingWrong "boom")] ∧
    (handleVoice cfgTranslateFail []).replies =
      [Reply.text (somethingWrong "boom")] := by
  refine ⟨rfl, rfl, ?_, ?_⟩ <;> decide

/-- C4 (amended): a failure in Download, Transcode or Translate aborts the
rest of the pipeline (no synthesis is attempted), is reported with the
single generic reply "Something went wrong: " followed by the error text —
which does not name the failed capability — and the run proceeds to the
artifact cleanup. -/
theorem stage_error_aborts_and_cleans (cfg : Config) (fs0 : FS)
    (fid e : String)
    (hv : cfg.hasVoice = true) (hgf : cfg.getFileRes = Except.ok fid)
    (hok : cfg.unlinkOk (oggPath fid) = true ∧
      cfg.unlinkOk (wavPath fid) = true ∧ cfg.unlinkOk (ttsPath fid) = true)
    (hfail : cfg.downloadRes = Except.error e ∨
      (cfg.downloadRes = Except.ok () ∧ cfg.transcodeRes = Except.error e) ∨
      (cfg.downloadRes = Except.ok () ∧ cfg.transcodeRes = Except.ok () ∧
        transcriptOf cfg.recResult ≠ "" ∧
        cfg.translateRes (transcriptOf cfg.recResult) = Except.error e)) :
    (handleVoice cfg fs0).replies = [Reply.text (somethingWrong e)] ∧
    (handleVoice cfg fs0).synthesized = [] ∧
    oggPath fid ∉ (handleVoice cfg fs0).fs ∧
    wavPath fid ∉ (handleVoice cfg fs0).fs ∧
    ttsPath fid ∉ (handleVoice cfg fs0).fs := by
  rw [handleVoice_getFile_ok cfg fs0 fid hv hgf]
  have hclean :
      oggPath fid ∉
        cleanupAll cfg.unlinkOk
          (runPipeline cfg fs0 (oggPath fid) (wavPath fid) (ttsPath fid)).fs
          [some (oggPath fid), some (wavPath fid), some (ttsPath fid)] ∧
      wavPath fid ∉
        cleanupAll cfg.unlinkOk
          (runPipeline cfg fs0 (oggPath fid) (wavPath fid) (ttsPath fid)).fs
          [some (oggPath fid), some (wavPath fid), some (ttsPath fid)] ∧
      ttsPath fid ∉
        cleanupAll cfg.unlinkOk
          (runPipeline cfg fs0 (oggPath fid) (wavPath fid) (ttsPath fid)).fs
          [some (oggPath fid), some (wavPath fid), some (ttsPath fid)] :=
    ⟨not_mem_cleanupAll _ _ _ _ (by simp) hok.1,
      not_mem_cleanupAll _ _ _ _ (by simp) hok.2.1,
      not_mem_cleanupAll _ _ _ _ (by simp) hok.2.2⟩
  rcases hfail with h | ⟨h1, h2⟩ | ⟨h1, h2, h3, h4⟩
  · rw [runPipeline_download_error cfg fs0 _ _ _ e h] at hclean ⊢
    exact ⟨rfl, rfl, hclean⟩
  · rw [runPipeline_transcode_error cfg fs0 _ _ _ e h1 h2] at hclean ⊢
    exact ⟨rfl, rfl, hclean⟩
  · rw [runPipeline_translate_error cfg fs0 _ _ _ e h1 h2 h3 h4] at hclean ⊢
    exact ⟨rfl, rfl, hclean⟩

/-- Witness for the amended C4, at the concrete download-failure run. -/
theorem stage_error_aborts_and_cleans_witness :
    (handleVoice cfgDownloadFail []).replies =
      [Reply.text (somethingWrong "boom")] ∧
    (handleVoice cfgDownloadFail []).synthesized = [] ∧
    oggPath "f1" ∉ (handleVoice cfgDownloadFail []).fs ∧
    wavPath "f1" ∉ (handleVoice cfgDownloadFail []).fs ∧
    ttsPath "f1" ∉ (handleVoice cfgDownloadFail []).fs :=
  stage_error_aborts_and_cleans cfgDownloadFail [] "f1" "boom"
    rfl rfl ⟨rfl, rfl, rfl⟩ (Or.inl rfl)

/-- C5: a run whose transcription yields the empty transcript replies with
the distinct could-not-transcribe notice, invokes neither the translator
nor gTTS, sends no audio reply, and still cleans up its artifacts. -/
theorem empty_transcript_terminal (cfg : Config) (fs0 : FS) (fid : String)
    (hv : cfg.hasVoice = true) (hgf : cfg.getFileRes = Except.ok fid)
    (hdl : cfg.downloadRes = Except.ok ())
    (htc : cfg.transcodeRes = Except.ok ())
    (hk : transcriptOf cfg.recResult = "")
    (hok : cfg.unlinkOk (oggPath fid) = true ∧
      cfg.unlinkOk (wavPath fid) = true ∧ cfg.unlinkOk (ttsPath fid) = true) :
    (handleVoice cfg fs0).replies = [Reply.text couldNotMsg] ∧
    (handleVoice cfg fs0).translated = [] ∧
    (handleVoice cfg fs0).synthesized = [] ∧
    oggPath fid ∉ (handleVoice cfg fs0).fs ∧
    wavPath fid ∉ (handleVoice cfg fs0).fs ∧
    ttsPath fid ∉ (handleVoice cfg fs0).fs := by
  rw [handleVoice_getFile_ok cfg fs0 fid hv hgf]
  have hclean :
      oggPath fid ∉
        cleanupAll cfg.unlinkOk
          (runPipeline cfg fs0 (oggPath fid) (wavPath fid) (ttsPath fid)).fs
          [some (oggPath fid), some (wavPath fid), some (ttsPath fid)] ∧
      wavPath fid ∉
        cleanupAll cfg.unlinkOk
          (runPipeline cfg fs0 (oggPath fid) (wavPath fid) (ttsPath fid)).fs
          [some (oggPath fid), some (wavPath fid), some (ttsPath fid)] ∧
      ttsPath fid ∉
        cleanupAll cfg.unlinkOk
          (runPipeline cfg fs0 (oggPath fid) (wavPath fid) (ttsPath fid)).fs
          [some (oggPath fid), some (wavPath fid), some (ttsPath fid)] :=
    ⟨not_mem_cleanupAll _ _ _ _ (by simp) hok.1,
      not_mem_cleanupAll _ _ _ _ (by simp) hok.2.1,
      not_mem_cleanupAll _ _ _ _ (by simp) hok.2.2⟩
  rw [runPipeline_empty_transcript cfg fs0 _ _ _ hdl htc hk] at hclean ⊢
  exact ⟨rfl, rfl, rfl, hclean⟩

/-- Witness for C5: the concrete no-speech run. -/
theorem empty_transcript_terminal_witness :
    (handleVoice cfgEmpty []).replies = [Reply.text couldNotMsg] ∧
    (handleVoice cfgEmpty []).translated = [] ∧
    (handleVoice cfgEmpty []).synthesized = [] ∧
    oggPath "f1" ∉ (handleVoice cfgEmpty []).fs ∧
    wavPath "f1" ∉ (handleVoice cfgEmpty []).fs ∧
    ttsPath "f1" ∉ (handleVoice cfgEmpty []).fs :=
  empty_transcript_terminal cfgEmpty [] "f1" rfl rfl rfl rfl rfl
    ⟨rfl, rfl, rfl⟩

/-- C6: when translation succeeded and the success text reply was
delivered, a gTTS save failure or an audio-send failure is swallowed: the
replies are exactly the already-delivered success text (no audio reply, no
further error notice), and the artifact cleanup still runs. -/
theorem synthesis_failure_swallowed (cfg : Config) (fs0 : FS)
    (fid v e : String)
    (hv : cfg.hasVoice = true) (hgf : cfg.getFileRes = Except.ok fid)
    (hdl : cfg.downloadRes = Except.ok ())
    (htc : cfg.transcodeRes = Except.ok ())
    (hk : transcriptOf cfg.recResult ≠ "")
    (htr : cfg.translateRes (transcriptOf cfg.recResult) = Except.ok v)
    (hfail : cfg.ttsSaveRes v = Except.error e ∨
      (cfg.ttsSaveRes v = Except.ok () ∧ cfg.sendAudioRes = Except.error e))
    (hok : cfg.unlinkOk (oggPath fid) = true ∧
      cfg.unlinkOk (wavPath fid) = true ∧ cfg.unlinkOk (ttsPath fid) = true) :
    (handleVoice cfg fs0).replies =
      [Reply.text (successReply (transcriptOf cfg.recResult) v)] ∧
    oggPath fid ∉ (handleVoice cfg fs0).fs ∧
    wavPath fid ∉ (handleVoice cfg fs0).fs ∧
    ttsPath fid ∉ (handleVoice cfg fs0).fs := by
  rw [handleVoice_getFile_ok cfg fs0 fid hv hgf]
  have hclean :
      oggPath fid ∉
        cleanupAll cfg.unlinkOk
          (runPipeline cfg fs0 (oggPath fid) (wavPath fid) (ttsPath fid)).fs
          [some (oggPath fid), some (wavPath fid), some (ttsPath fid)] ∧
      wavPath fid ∉
        cleanupAll cfg.unlinkOk
          (runPipeline cfg fs0 (oggPath fid) (wavPath fid) (ttsPath fid)).fs
          [some (oggPath fid), some (wavPath fid), some (ttsPath fid)] ∧
      ttsPath fid ∉
        cleanupAll cfg.unlinkOk
          (runPipeline cfg fs0 (oggPath fid) (wavPath fid) (ttsPath fid)).fs
          [some (oggPath fid), some (wavPath fid), some (ttsPath fid)] :=
    ⟨not_mem_cleanupAll _ _ _ _ (by simp) hok.1,
      not_mem_cleanupAll _ _ _ _ (by simp) hok.2.1,
      not_mem_cleanupAll _ _ _ _ (by simp) hok.2.2⟩
  rcases hfail with h | ⟨h1, h2⟩
  · rw [runPipeline_ttsSave_error cfg fs0 _ _ _ v e hdl htc hk htr h]
      at hclean ⊢
    exact ⟨rfl, hclean⟩
  · rw [runPipeline_send_error cfg fs0 _ _ _ v e hdl htc hk htr h1 h2]
      at hclean ⊢
    exact ⟨rfl, hclean⟩

/-- Witness for C6: the concrete gTTS-failure run. -/
theorem synthesis_failure_swallowed_witness :
    (handleVoice cfgTtsFail []).replies =
      [Reply.text (successReply (transcriptOf cfgTtsFail.recResult)
        "vi suasdei")] ∧
    oggPath "f1" ∉ (handleVoice cfgTtsFail []).fs ∧
    wavPath "f1" ∉ (handleVoice cfgTtsFail []).fs ∧
    ttsPath "f1" ∉ (handleVoice cfgTtsFail []).fs :=
  synthesis_failure_swallowed cfgTtsFail [] "f1" "vi suasdei" "tts down"
    rfl rfl rfl rfl (by decide) rfl (Or.inl rfl) ⟨rfl, rfl, rfl⟩

/-- C7: in one sweep pass (cutoff = pass start minus one day), every
regular file of the downloads directory strictly older than the cutoff is
deleted (the unlinks being permitted), and every one whose mtime is at or
after the cutoff survives untouched (paths listed without duplicates). -/
theorem sweep_deletes_old_keeps_young (ok : String → Bool) (now : Int)
    (fs : List Entry) (hnd : (fs.map Entry.path).Nodup)
    (hok : ∀ d ∈ fs, ok d.path = true)
    (e : Entry) (he : e ∈ fs) (hd : e.inDownloads = true)
    (hf : e.isFile = true) :
    (e.mtime < cutoffAt now → e ∉ sweepPass ok (cutoffAt now) fs) ∧
    (cutoffAt now ≤ e.mtime → e ∈ sweepPass ok (cutoffAt now) fs) := by
  constructor
  · intro hm
    exact not_mem_sweepPass_old ok _ fs e hd hf hm (hok e he)
  · intro hm
    rw [mem_sweepPass]
    refine ⟨he, ?_⟩
    intro d hdin hc heq
    have hde : e = d := List.inj_on_of_nodup_map hnd he hdin heq
    rw [← hde] at hc
    exact absurd hc.2.2.1 (not_lt.mpr hm)

/-- Witness for C7: on a concrete snapshot, the day-old file is swept and
the fresh file survives. -/
theorem sweep_deletes_old_keeps_young_witness :
    entryOld ∉ sweepPass okAll (cutoffAt 136400) fsSweep ∧
    entryNew ∈ sweepPass okAll (cutoffAt 136400) fsSweep :=
  ⟨(sweep_deletes_old_keeps_young okAll 136400 fsSweep (by decide)
      (by decide) entryOld (by decide) rfl rfl).1 (by decide),
    (sweep_deletes_old_keeps_young okAll 136400 fsSweep (by decide)
      (by decide) entryNew (by decide) rfl rfl).2 (by decide)⟩

/-- C8: the sweeper loop is resilient — if at some iteration `k` the
iteration body does not raise, then an eligible old file whose own unlink
succeeds is gone after any `n > k` iterations, regardless of deletion
failures on other entries (the unlink oracle is arbitrary elsewhere) and
regardless of whole iterations before or after `k` having raised. -/
theorem sweeper_survives_errors (ok : String → Bool) (iterFails : Nat → Bool)
    (nows : Nat → Int) (fs : List Entry) (e : Entry) (k n : Nat)
    (hd : e.inDownloads = true) (hf : e.isFile = true)
    (hm : e.mtime < cutoffAt (nows k)) (hok : ok e.path = true)
    (hit : iterFails k = false) (hkn : k < n) :
    e ∉ sweeperRun ok iterFails nows n fs := by
  induction n with
  | zero => exact absurd hkn (Nat.not_lt_zero k)
  | succ n ih =>
    intro hmem
    by_cases hk : k = n
    · subst hk
      have hmem2 : e ∈ sweepPass ok (cutoffAt (nows k))
          (sweeperRun ok iterFails nows k fs) := by
        unfold sweeperRun sweepIter at hmem
        rw [hit] at hmem
        simpa using hmem
      exact not_mem_sweepPass_old ok _ _ e hd hf hm hok hmem2
    · exact ih (by omega) (sweepIter_subset _ _ _ _ _ hmem)

/-- Witness for C8: iteration 0 raises and the unlink of `downloads/x.ogg`
keeps failing, yet the old file is gone after iteration 1 (checked after
two iterations). -/
theorem sweeper_survives_errors_witness :
    entryOld ∉
      sweeperRun okButX (fun k => k == 0) (fun _ => 136400) 2 fsSweepX :=
  sweeper_survives_errors okButX (fun k => k == 0) (fun _ => 136400)
    fsSweepX entryOld 1 2 rfl rfl (by decide) (by decide) rfl
    (by decide)

/-- C9: the guarded per-artifact delete of the `finally` block is
idempotent and framed — deleting a never-created (or already-deleted)
artifact returns the store unchanged (and raises nothing: the operation is
total), deleting twice equals deleting once, and a delete never changes
the presence of any other path. -/
theorem delete_idempotent_and_framed (ok : String → Bool) (fs fs2 : FS)
    (p q : String) (hp : p ∉ fs) (hq : q ≠ p) :
    deleteArtifact ok fs (some p) = fs ∧
    deleteArtifact ok (deleteArtifact ok fs2 (some p)) (some p) =
      deleteArtifact ok fs2 (some p) ∧
    (q ∈ deleteArtifact ok fs2 (some p) ↔ q ∈ fs2) := by
  refine ⟨?_, ?_, ?_⟩
  · simp only [deleteArtifact]
    rw [if_neg hp]
  · by_cases hm : p ∈ fs2
    · by_cases ho : ok p = true
      · have h1 : deleteArtifact ok fs2 (some p) =
            fs2.filter (fun q => q ≠ p) := by
          simp only [deleteArtifact, tryUnlink]
          rw [if_pos hm, if_pos ho]
        rw [h1]
        simp only [deleteArtifact]
        rw [if_neg (by simp [List.mem_filter] :
          p ∉ fs2.filter (fun q => q ≠ p))]
      · have h1 : deleteArtifact ok fs2 (some p) = fs2 := by
          simp only [deleteArtifact, tryUnlink]
          rw [if_pos hm, if_neg ho]
        rw [h1]
        exact h1
    · have h1 : deleteArtifact ok fs2 (some p) = fs2 := by
        simp only [deleteArtifact]
        rw [if_neg hm]
      rw [h1]
      exact h1
  · rw [mem_deleteArtifact]
    constructor
    · exact fun h => h.1
    · intro h
      refine ⟨h, ?_⟩
      rintro p' hp' hok
      injection hp' with hpe
      subst hpe
      exact hq

/-- Witness for C9, deleting the raw artifact of request `f1`: on the
empty store it is a no-op, on a two-file store it is idempotent and the
unrelated file keeps its membership. -/
theorem delete_idempotent_and_framed_witness :
    deleteArtifact okAll [] (some (oggPath "f1")) = [] ∧
    deleteArtifact okAll
        (deleteArtifact okAll [oggPath "f1", "downloads/keep.txt"]
          (some (oggPath "f1")))
        (some (oggPath "f1")) =
      deleteArtifact okAll [oggPath "f1", "downloads/keep.txt"]
        (some (oggPath "f1")) ∧
    ("downloads/keep.txt" ∈
        deleteArtifact okAll [oggPath "f1", "downloads/keep.txt"]
          (some (oggPath "f1")) ↔
      "downloads/keep.txt" ∈ [oggPath "f1", "downloads/keep.txt"]) :=
  delete_idempotent_and_framed okAll [] [oggPath "f1", "downloads/keep.txt"]
    (oggPath "f1") "downloads/keep.txt" (by decide) (by decide)

/-- C10: a sweep pass only ever removes regular files of the downloads
directory — any entry that is a subdirectory, or any path outside the
downloads directory, survives the pass whatever its age, and the pass
creates nothing (paths listed without duplicates). -/
theorem sweep_touches_only_downloads_files (ok : String → Bool)
    (cutoff : Int) (fs : List Entry) (hnd : (fs.map Entry.path).Nodup)
    (e : Entry) (he : e ∈ fs)
    (hnot : ¬(e.isFile = true ∧ e.inDownloads = true)) :
    e ∈ sweepPass ok cutoff fs ∧
    ∀ d ∈ sweepPass ok cutoff fs, d ∈ fs := by
  constructor
  · rw [mem_sweepPass]
    refine ⟨he, ?_⟩
    intro d hdin hc heq
    have hde : e = d := List.inj_on_of_nodup_map hnd he hdin heq
    rw [← hde] at hc
    exact hnot ⟨hc.2.1, hc.1⟩
  · exact fun d hd => sweepPass_subset ok cutoff fs d hd

/-- Witness for C10: the ancient subdirectory and the ancient file outside
the downloads directory both survive a concrete pass. -/
theorem sweep_touches_only_downloads_files_witness :
    entryDir ∈ sweepPass okAll (cutoffAt 136400) fsSweep ∧
    entryOutside ∈ sweepPass okAll (cutoffAt 136400) fsSweep :=
  ⟨(sweep_touches_only_downloads_files okAll (cutoffAt 136400) fsSweep
      (by decide) entryDir (by decide) (by decide)).1,
    (sweep_touches_only_downloads_files okAll (cutoffAt 136400) fsSweep
      (by decide) entryOutside (by decide) (by decide)).1⟩

end TranslateBot
